import Mathlib

/-!
Verification of the correlation-analysis, AI-analysis and export components of
the field-lab dashboard (src/correlation_analysis.py, src/ai_analysis.py,
src/export_utils.py), as a shallow embedding in Lean 4.

Modelling conventions:
* Python floats are modelled as rationals.
* Python dicts are association lists; assignment `d[k] = v` updates the first
  binding of `k` or appends a fresh one, and `.get` reads the first binding.
* scipy routines (pearsonr / spearmanr / kendalltau) and pandas
  `DataFrame.corr` are external library calls; they are passed in as explicit
  function parameters.  A routine that raises is modelled by `Option` / by
  `Except`, the raised exception message being the `Except.error` payload.
* `np.random.normal(mu, sigma)` consumes the head of an ambient stream of
  standard-normal draws and yields `mu + sigma * draw` (state passing).
* Wall-clock timestamps are passed in as an explicit `now` argument where a
  claim needs the field at all; `analysis_timestamp` fields that no claim
  mentions are omitted from result records.
-/

namespace FieldLab

/-- The three scipy correlation routines named in `correlation_methods`. -/
inductive CorrMethod where
  | pearson
  | spearman
  | kendall
deriving DecidableEq, Repr

/-- A pandas DataFrame as stored under the `environmental` / `economic` keys of
a country-data entry: column names and numeric rows. -/
structure DF where
  columns : List String
  rows : List (List ℚ)
deriving DecidableEq, Repr

/-- pandas `DataFrame.empty`: true iff either axis has length zero. -/
def DF.isEmpty (df : DF) : Bool := df.rows.isEmpty || df.columns.isEmpty

/-- One value of the country-data dictionary passed to
`calculate_cross_country_correlations`.  `isDict` is the
`isinstance(country_data, dict)` test; `environmental` / `economic` are the
values under those keys when present and of DataFrame type (a missing key and
a present non-DataFrame value behave identically in the source, so both are
`none`). -/
structure CountryEntry where
  isDict : Bool
  environmental : Option DF
  economic : Option DF
deriving DecidableEq, Repr

/-- A Python value stored in a `row_data` dict: a string or a float. -/
inductive PyVal where
  | s (v : String)
  | f (v : ℚ)
deriving DecidableEq, Repr

/-- Python dict read `d.get(k)`: the first binding of `k`, if any. -/
def alookup {β : Type} (d : List (String × β)) (k : String) : Option β :=
  match d with
  | [] => none
  | (k', v) :: rest => if k' = k then some v else alookup rest k

/-- Python dict assignment `d[k] = v`: update the first binding of `k`, or
append a fresh binding. -/
def dictInsert (d : List (String × PyVal)) (k : String) (v : PyVal) :
    List (String × PyVal) :=
  match d with
  | [] => [(k, v)]
  | (k', v') :: rest =>
      if k' = k then (k, v) :: rest else (k', v') :: dictInsert rest k v

/-- `np.random.normal(mu, sigma)`: consume the head of the ambient stream of
sampled values and return it.  `mu` and `sigma` parameterize the distribution
the sample was drawn from, which the nondeterministic stream abstracts; the
essential point is that the value comes from the random stream, not from the
function's input data. -/
def normalDraw (mu sigma : ℚ) (rng : List ℚ) : ℚ × List ℚ :=
  (rng.headD 0, rng.tail)

/-- The loop `for var in vars: row_data[var] = float(np.random.normal(mu, sigma))`. -/
def fillVars (mu sigma : ℚ) (vars : List String)
    (row : List (String × PyVal)) (rng : List ℚ) :
    List (String × PyVal) × List ℚ :=
  match vars with
  | [] => (row, rng)
  | v :: rest =>
      let d := normalDraw mu sigma rng
      fillVars mu sigma rest (dictInsert row v (.f d.1)) d.2

/-- The row-building loop of `_prepare_correlation_matrix` (lines 222-244):
one `row_data` dict per dict-valued country entry, starting from
`{'country': country}` and filling `primary_vars` (resp. `secondary_vars`)
with simulated draws when the `environmental` (resp. `economic`) DataFrame is
present and non-empty. -/
def prepareRows (data : List (String × CountryEntry))
    (primary_vars secondary_vars : List String) (rng : List ℚ) :
    List (List (String × PyVal)) × List ℚ :=
  match data with
  | [] => ([], rng)
  | (country, cd) :: rest =>
      if cd.isDict then
        let row0 : List (String × PyVal) := [("country", .s country)]
        let st1 :=
          match cd.environmental with
          | some df => if df.isEmpty then (row0, rng) else fillVars 50 10 primary_vars row0 rng
          | none => (row0, rng)
        let st2 :=
          match cd.economic with
          | some df => if df.isEmpty then st1 else fillVars 30000 5000 secondary_vars st1.1 st1.2
          | none => st1
        let st3 := prepareRows rest primary_vars secondary_vars st2.2
        (st2.1 :: st3.1, st3.2)
      else
        prepareRows rest primary_vars secondary_vars rng

/-- Column order of `pd.DataFrame(list_of_dicts)`: union of the dict keys in
order of first appearance. -/
def firstKeys : List String → List String
  | [] => []
  | k :: rest => k :: (firstKeys rest).filter (fun k' => k' ≠ k)

/-- A column is numeric for `select_dtypes(include=[np.number])` iff every row
in which it appears holds a float (a row where the key is missing contributes
NaN, which keeps the column numeric). -/
def colIsNumeric (rows : List (List (String × PyVal))) (c : String) : Bool :=
  rows.all fun r =>
    match alookup r c with
    | none => true
    | some (.f _) => true
    | some (.s _) => false

/-- The table `correlation_df[list(numeric_columns)]` returned by
`_prepare_correlation_matrix`: the selected numeric columns, and per row the
bindings of those columns (a missing binding is NaN). -/
structure Table where
  columns : List String
  rows : List (List (String × ℚ))
deriving DecidableEq, Repr

/-- pandas `DataFrame.empty` on the prepared table. -/
def Table.isEmpty (t : Table) : Bool := t.rows.isEmpty || t.columns.isEmpty

/-- `data[col].dropna()`: the values present for a column, in row order. -/
def Table.colVals (t : Table) (c : String) : List ℚ :=
  t.rows.filterMap fun r => alookup r c

/-- `_prepare_correlation_matrix` (lines 208-250): build the rows, take the
numeric columns, and keep only those bindings. -/
def prepare_correlation_matrix (data : List (String × CountryEntry))
    (primary_vars secondary_vars : List String) (rng : List ℚ) :
    Table × List ℚ :=
  let st := prepareRows data primary_vars secondary_vars rng
  let allCols := firstKeys (st.1.flatMap fun r => r.map Prod.fst)
  let numCols := allCols.filter fun c => colIsNumeric st.1 c
  ({ columns := numCols,
     rows := st.1.map fun r =>
       r.filterMap fun kv =>
         match kv.2 with
         | .f q => if kv.1 ∈ numCols then some (kv.1, q) else none
         | .s _ => none },
   st.2)

/-- Python `str.lower()`: lower-case every character. -/
def pyLower (s : String) : String := ⟨s.data.map Char.toLower⟩

/-- Lines 48-55: the `method.lower()` dispatch used for
`correlation_data.corr(...)`, defaulting to Pearson. -/
def corr_matrix_method (method : String) : CorrMethod :=
  if pyLower method = "pearson" then .pearson
  else if pyLower method = "spearman" then .spearman
  else if pyLower method = "kendall" then .kendall
  else .pearson

/-- Line 265: `self.correlation_methods.get(method, pearsonr)` — a
case-sensitive dict lookup with keys `Pearson`, `Spearman`, `Kendall`,
defaulting to `pearsonr`. -/
def correlation_methods_get (method : String) : CorrMethod :=
  if method = "Pearson" then .pearson
  else if method = "Spearman" then .spearman
  else if method = "Kendall" then .kendall
  else .pearson

/-- The type of the scipy routine family: given the routine and the two
dropna-ed columns, return `(coefficient, p_value)`, or `none` when the call
raises. -/
def CorrStat : Type := CorrMethod → List ℚ → List ℚ → Option (ℚ × ℚ)

/-- `_calculate_correlation_p_values` (lines 252-279): a dict of dicts over
the columns, `0.0` on the diagonal, the routine p-value off it, `1.0` when
the routine raises.  (The nested loops assign each key once because the
prepared table has distinct columns.) -/
def calculate_correlation_p_values (corrStat : CorrStat) (data : Table)
    (method : String) : List (String × List (String × ℚ)) :=
  let corr_func := correlation_methods_get method
  data.columns.map fun col1 =>
    (col1, data.columns.map fun col2 =>
      (col2,
        if col1 = col2 then 0
        else
          match corrStat corr_func (data.colVals col1) (data.colVals col2) with
          | some r => r.2
          | none => 1))

/-- `p_values.get(col1, {}).get(col2, 1.0)`. -/
def pget (p : List (String × List (String × ℚ))) (c1 c2 : String) : ℚ :=
  match alookup p c1 with
  | none => 1
  | some inner => (alookup inner c2).getD 1

/-- A correlation matrix as consumed by `_identify_strong_correlations` and
`_assess_statistical_significance`: its column labels and the entry lookup
`correlation_matrix.loc[col1, col2]`. -/
structure Mat where
  columns : List String
  entry : String → String → ℚ

/-- Python `abs` on a float. -/
def pyAbs (q : ℚ) : ℚ := if q < 0 then -q else q

/-- The `correlation_info` dict built at lines 305-310. -/
structure CorrInfo where
  «variables» : String
  coefficient : ℚ
  p_value : ℚ
  strength : String
deriving DecidableEq, Repr

/-- Lines 305-310: the record for one strong pair, with the
`Strong` / `Moderate` label cut at `abs(corr) >= 0.8`. -/
def mkCorrInfo (c1 c2 : String) (corr p : ℚ) : CorrInfo :=
  { «variables» := c1 ++ " vs " ++ c2,
    coefficient := corr,
    p_value := p,
    strength := if Rat.divInt 4 5 ≤ pyAbs corr then "Strong" else "Moderate" }

/-- The `i < j` pairs of the nested loops at lines 298-300, in their
traversal order (lexicographic in the indices). -/
def pairsUnder : List String → List (String × String)
  | [] => []
  | c :: rest => (rest.map fun c2 => (c, c2)) ++ pairsUnder rest

/-- `_identify_strong_correlations` (lines 281-317): walk the `i < j` pairs,
keep those with `abs(corr) >= threshold` and `p < 0.05`, and append each kept
record to the positive list when `corr > 0` and to the negative list
otherwise. -/
def identify_strong_correlations (m : Mat)
    (p_values : List (String × List (String × ℚ))) (threshold : ℚ) :
    List CorrInfo × List CorrInfo :=
  let infos := (pairsUnder m.columns).filterMap fun pr =>
    let corr_value := m.entry pr.1 pr.2
    let p_value := pget p_values pr.1 pr.2
    if threshold ≤ pyAbs corr_value ∧ p_value < Rat.divInt 1 20 then
      some (mkCorrInfo pr.1 pr.2 corr_value p_value)
    else
      none
  (infos.filter fun i => decide (0 < i.coefficient),
   infos.filter fun i => decide (¬ 0 < i.coefficient))

/-- The dict returned by `_assess_statistical_significance`. -/
structure SigResults where
  total_correlations : ℕ
  significant_correlations : ℕ
  significance_rate : ℚ
  alpha_level : ℚ
deriving DecidableEq, Repr

/-- The ordered distinct-label pairs walked by the nested loops of
`_assess_statistical_significance` (lines 336-342). -/
def orderedPairs (l1 l2 : List String) : List (String × String) :=
  l1.flatMap fun c1 => l2.flatMap fun c2 => if c1 ≠ c2 then [(c1, c2)] else []

/-- `_assess_statistical_significance` (lines 319-349): count the ordered
distinct pairs and the significant ones, halve both reported counts, and
report the raw ratio as the rate. -/
def assess_statistical_significance (m : Mat)
    (p_values : List (String × List (String × ℚ))) (alpha : ℚ) : SigResults :=
  let ordered := orderedPairs m.columns m.columns
  let total := ordered.length
  let significant :=
    (ordered.filter fun pr => decide (pget p_values pr.1 pr.2 < alpha)).length
  { total_correlations := total / 2,
    significant_correlations := significant / 2,
    significance_rate := if 0 < total then (significant : ℚ) / (total : ℚ) else 0,
    alpha_level := alpha }

/-- `correlation_matrix.to_dict()`: the nested dict of entries over the
matrix columns. -/
def matrix_to_dict (m : Mat) : List (String × List (String × ℚ)) :=
  m.columns.map fun c1 => (c1, m.columns.map fun c2 => (c2, m.entry c1 c2))

/-- The dict returned by `calculate_cross_country_correlations`.  `none` in an
`Option` field means the key is absent from the returned dict (the two error
dicts carry only `error`, `correlation_matrix`, `strong_positive`,
`strong_negative` and `p_values`). -/
structure CorrResult where
  error : Option String
  correlation_matrix : Option (List (String × List (String × ℚ)))
  p_values : List (String × List (String × ℚ))
  strong_positive : List CorrInfo
  strong_negative : List CorrInfo
  significance_results : Option SigResults
  method_used : Option String
  variables_analyzed : Option (List String)
  data_points : Option ℕ
deriving DecidableEq, Repr

/-- The default dict returned at lines 39-45 and 83-89: an error message and
empty / null result fields. -/
def corrErrorResult (msg : String) : CorrResult :=
  { error := some msg,
    correlation_matrix := none,
    p_values := [],
    strong_positive := [],
    strong_negative := [],
    significance_results := none,
    method_used := none,
    variables_analyzed := none,
    data_points := none }

/-- The type of pandas `DataFrame.corr`: given the dispatched method and the
table, the entry lookup of the resulting matrix (whose labels are the table
columns), or the message of a raised exception. -/
def CorrDF : Type := CorrMethod → Table → Except String (String → String → ℚ)

/-- `calculate_cross_country_correlations` (lines 18-89): prepare the table,
return the no-data dict when it is empty, dispatch the matrix method by
`method.lower()`, compute p-values, strong pairs and significance, and catch
any raised exception into the default dict with a
`Correlation analysis failed:` message. -/
def calculate_cross_country_correlations (corrStat : CorrStat) (corrDF : CorrDF)
    (rng : List ℚ) (data : List (String × CountryEntry))
    (primary_vars secondary_vars : List String) (method : String) : CorrResult :=
  let correlation_data := (prepare_correlation_matrix data primary_vars secondary_vars rng).1
  if correlation_data.isEmpty then
    corrErrorResult "No sufficient data for correlation analysis"
  else
    match corrDF (corr_matrix_method method) correlation_data with
    | .error e => corrErrorResult ("Correlation analysis failed: " ++ e)
    | .ok entry =>
        let correlation_matrix : Mat := { columns := correlation_data.columns, entry := entry }
        let p_values := calculate_correlation_p_values corrStat correlation_data method
        let strong := identify_strong_correlations correlation_matrix p_values (Rat.divInt 7 10)
        let significance_results :=
          assess_statistical_significance correlation_matrix p_values (Rat.divInt 1 20)
        { error := none,
          correlation_matrix := some (matrix_to_dict correlation_matrix),
          p_values := p_values,
          strong_positive := strong.1,
          strong_negative := strong.2,
          significance_results := some significance_results,
          method_used := some method,
          variables_analyzed := some correlation_data.columns,
          data_points := some correlation_data.rows.length }

/-! Embedding of src/ai_analysis.py. -/

/-- A JSON value, as produced by `json.loads` on the LLM response. -/
inductive Json where
  | str (s : String)
  | num (q : ℚ)
  | jbool (b : Bool)
  | null
  | arr (elems : List Json)
  | obj (fields : List (String × Json))

/-- Python dict assignment on a parsed JSON object
(`analysis_result['analysis_metadata'] = ...`). -/
def jsonInsert (fields : List (String × Json)) (k : String) (v : Json) :
    List (String × Json) :=
  match fields with
  | [] => [(k, v)]
  | f :: rest => if f.1 = k then (k, v) :: rest else f :: jsonInsert rest k v

/-- A dataset value passed to `_summarize_data_for_ai`: a DataFrame, some
other Python object (summarized through `str(...)`), or None. -/
inductive PyData where
  | frame (t : Table)
  | raw (s : String)
  | noneVal

/-- `AIAnalysisEngine.__init__` state: the OpenAI client (carrying the
`OPENAI_API_KEY` value used to build it) and the model name. -/
structure AIAnalysisEngine where
  openai_client : Option String
  model : String
deriving DecidableEq, Repr

/-- `AIAnalysisEngine()` constructor (lines 12-16). -/
def AIAnalysisEngine.init (apiKey : Option String) : AIAnalysisEngine :=
  { openai_client := apiKey, model := "gpt-5" }

/-- One request to `openai_client.chat.completions.create`: the model, the
system and user messages, and the response format. -/
structure ChatRequest where
  model : String
  system_content : String
  user_content : String
  response_format : String
deriving DecidableEq, Repr

/-- The external LLM round trip: `chat.completions.create` followed by
`json.loads` on the returned message content.  `response_format json_object`
guarantees an object at top level, so a successful round trip yields its
fields; a raised exception (API failure or parse failure) is the error
message. -/
def LLMOracle : Type := ChatRequest → Except String (List (String × Json))

/-- `_summarize_data_for_ai` (lines 289-319), with the per-DataFrame f-string
block condensed to its shape-and-columns core (no claim inspects the summary
text). -/
def summarize_data_for_ai (data : List (String × PyData)) : String :=
  String.intercalate "\n" <| data.map fun kv =>
    match kv.2 with
    | .noneVal => kv.1.toUpper ++ ": No data available"
    | .frame t =>
        if t.isEmpty then kv.1.toUpper ++ ": Empty dataset"
        else
          kv.1.toUpper ++ ": Shape: (" ++ toString t.rows.length ++ ", "
            ++ toString t.columns.length ++ "), Columns: " ++ toString t.columns
    | .raw s => kv.1.toUpper ++ ": " ++ s.take 200 ++ "..."

/-- The hypothesis-analysis prompt of lines 37-65 (the JSON-skeleton tail is
condensed; no claim inspects the prompt text). -/
def analyze_hypothesis_prompt (hypothesis analysis_type confidence_level data_summary : String) :
    String :=
  "You are an environmental data scientist analyzing Southeast Asian environmental data.\n"
    ++ "HYPOTHESIS TO TEST: " ++ hypothesis ++ "\n"
    ++ "ANALYSIS TYPE: " ++ analysis_type ++ "\n"
    ++ "CONFIDENCE LEVEL: " ++ confidence_level ++ "\n"
    ++ "AVAILABLE DATA SUMMARY:\n" ++ data_summary ++ "\n"
    ++ "Please provide a comprehensive analysis in JSON format with the following structure: ..."

/-- The `analysis_metadata` dict added at lines 85-91: timestamp, the call
arguments, and `list(data.keys())`. -/
def analyzeMetadata (now hypothesis analysis_type confidence_level : String)
    (data : List (String × PyData)) : Json :=
  .obj
    [("timestamp", .str now),
     ("hypothesis", .str hypothesis),
     ("analysis_type", .str analysis_type),
     ("confidence_level", .str confidence_level),
     ("data_sources", .arr (data.map fun kv => .str kv.1))]

/-- `analyze_hypothesis` (lines 18-102): build the prompt, call the LLM, add
the `analysis_metadata` key to the parsed object, and catch any raised
exception into the default dict with an `AI analysis failed:` message.  The
method assigns nothing to `self`; the returned first component is the
engine state after the call. -/
def analyze_hypothesis (self : AIAnalysisEngine) (oracle : LLMOracle) (now : String)
    (hypothesis : String) (data : List (String × PyData))
    (analysis_type confidence_level : String) : AIAnalysisEngine × Json :=
  let data_summary := summarize_data_for_ai data
  let prompt := analyze_hypothesis_prompt hypothesis analysis_type confidence_level data_summary
  let request : ChatRequest :=
    { model := self.model,
      system_content := "You are an expert environmental data scientist specializing in Southeast Asian environmental patterns and statistical analysis. Provide thorough, evidence-based analysis.",
      user_content := prompt,
      response_format := "json_object" }
  match oracle request with
  | .ok fields =>
      let metadata := analyzeMetadata now hypothesis analysis_type confidence_level data
      (self, .obj (jsonInsert fields "analysis_metadata" metadata))
  | .error e =>
      (self, .obj
        [("error", .str ("AI analysis failed: " ++ e)),
         ("hypothesis_assessment", .str "Analysis could not be completed"),
         ("interpretation", .str "Please check data availability and try again."),
         ("confidence_score", .num 0),
         ("data_points", .num 0)])

/-- `parse_natural_language_query` (lines 104-167): build the prompt, call
the LLM, and return the parsed object unchanged; a raised exception yields
the default dict with a `Query parsing failed:` message. -/
def parse_natural_language_query (self : AIAnalysisEngine) (oracle : LLMOracle)
    (query : String) (countries : List String) (date_range : String × String) :
    AIAnalysisEngine × Json :=
  let prompt :=
    "Parse the following natural language query into structured data requirements:\n"
      ++ "QUERY: " ++ query ++ "\n"
      ++ "AVAILABLE COUNTRIES: " ++ toString countries ++ "\n"
      ++ "DATE RANGE: " ++ date_range.1 ++ " to " ++ date_range.2 ++ "\n"
      ++ "Available data sources: singapore_weather, singapore_psi, asean_stats, adb_data.\n"
      ++ "Return JSON with this structure: ..."
  let request : ChatRequest :=
    { model := self.model,
      system_content := "You are an expert in parsing environmental data queries. Extract precise data requirements from natural language.",
      user_content := prompt,
      response_format := "json_object" }
  match oracle request with
  | .ok fields => (self, .obj fields)
  | .error e =>
      (self, .obj
        [("error", .str ("Query parsing failed: " ++ e)),
         ("data_sources", .arr []),
         ("variables", .arr []),
         ("analysis_type", .str "unknown")])

/-- `generate_query_response` (lines 169-231): summarize the results
(`_summarize_query_results` delegates to `_summarize_data_for_ai`), call the
LLM, and return the parsed object unchanged; a raised exception yields the
default dict with a `Response generation failed:` message. -/
def generate_query_response (self : AIAnalysisEngine) (oracle : LLMOracle)
    (original_query : String) (query_results : List (String × PyData))
    (output_format : String) : AIAnalysisEngine × Json :=
  let results_summary := summarize_data_for_ai query_results
  let prompt :=
    "Generate a comprehensive response to the users environmental data query:\n"
      ++ "ORIGINAL QUERY: " ++ original_query ++ "\n"
      ++ "OUTPUT FORMAT: " ++ output_format ++ "\n"
      ++ "DATA RESULTS SUMMARY:\n" ++ results_summary ++ "\n"
      ++ "Please provide response in JSON format: ..."
  let request : ChatRequest :=
    { model := self.model,
      system_content := "You are an environmental data analyst providing insights on Southeast Asian environmental data. Be specific and actionable.",
      user_content := prompt,
      response_format := "json_object" }
  match oracle request with
  | .ok fields => (self, .obj fields)
  | .error e =>
      (self, .obj
        [("error", .str ("Response generation failed: " ++ e)),
         ("insights", .str "Unable to generate insights from the provided data."),
         ("key_findings", .arr []),
         ("recommendations", .arr [])])

/-- `generate_environmental_insights` (lines 233-287): summarize the data,
call the LLM, and return the parsed object unchanged; a raised exception
yields the default dict with an `Insights generation failed:` message. -/
def generate_environmental_insights (self : AIAnalysisEngine) (oracle : LLMOracle)
    (data : List (String × PyData)) : AIAnalysisEngine × Json :=
  let data_summary := summarize_data_for_ai data
  let prompt :=
    "Analyze the following Southeast Asian environmental data and provide insights:\n"
      ++ "DATA SUMMARY:\n" ++ data_summary ++ "\n"
      ++ "Provide comprehensive environmental insights in JSON format: ..."
  let request : ChatRequest :=
    { model := self.model,
      system_content := "You are a senior environmental policy analyst specializing in Southeast Asia. Provide actionable insights for policymakers.",
      user_content := prompt,
      response_format := "json_object" }
  match oracle request with
  | .ok fields => (self, .obj fields)
  | .error e =>
      (self, .obj
        [("error", .str ("Insights generation failed: " ++ e)),
         ("overall_environmental_status", .str "Unable to assess with current data"),
         ("data_confidence", .num 0)])

/-- One call to an `AIAnalysisEngine` method, with its arguments. -/
inductive EngineCall where
  | analyze (now hypothesis : String) (data : List (String × PyData))
      (analysis_type confidence_level : String)
  | parseQuery (query : String) (countries : List String) (date_range : String × String)
  | queryResponse (original_query : String) (query_results : List (String × PyData))
      (output_format : String)
  | insights (data : List (String × PyData))

/-- Dispatch one `EngineCall` on the engine, yielding the engine state after
the call and the returned dict. -/
def engineStep (oracle : LLMOracle) (e : AIAnalysisEngine) :
    EngineCall → AIAnalysisEngine × Json
  | .analyze now h d ty conf => analyze_hypothesis e oracle now h d ty conf
  | .parseQuery q cs dr => parse_natural_language_query e oracle q cs dr
  | .queryResponse q r fmt => generate_query_response e oracle q r fmt
  | .insights d => generate_environmental_insights e oracle d

/-- Run a sequence of engine calls, threading the engine state. -/
def runCalls (oracle : LLMOracle) (e : AIAnalysisEngine) :
    List EngineCall → AIAnalysisEngine × List Json
  | [] => (e, [])
  | c :: rest =>
      let st := engineStep oracle e c
      let st' := runCalls oracle st.1 rest
      (st'.1, st.2 :: st'.2)

/-! Embedding of src/export_utils.py. -/

/-- `_get_environmental_glossary` (lines 304-314). -/
def get_environmental_glossary : List (String × String) :=
  [("PSI", "Pollutant Standards Index - measure of air quality based on pollutant concentrations"),
   ("EPI", "Environmental Performance Index - composite measure of environmental health and ecosystem vitality"),
   ("CO2 Emissions", "Carbon dioxide emissions measured in metric tons per capita"),
   ("Energy Intensity", "Energy consumption per unit of GDP"),
   ("Renewable Energy Share", "Percentage of total energy consumption from renewable sources"),
   ("Air Quality Index", "Standardized measure of air pollution levels"),
   ("Environmental Performance", "Composite measure of environmental outcomes and policy effectiveness")]

/-- `_get_methodology_notes` (lines 294-302). -/
def get_methodology_notes : List (String × String) :=
  [("correlation_analysis", "Pearson, Spearman, and Kendall correlation methods used based on data distribution"),
   ("statistical_significance", "p-values calculated at 95% confidence level unless otherwise specified"),
   ("ai_analysis", "OpenAI GPT-5 model used for hypothesis testing and data interpretation"),
   ("data_quality", "Data quality assessed based on completeness, consistency, and temporal coverage"),
   ("missing_data", "Missing data handled through appropriate imputation or exclusion methods")]

/-- `_get_data_sources_info` (lines 271-292). -/
def get_data_sources_info : Json :=
  .obj
    [("singapore_data_gov", .obj
       [("name", .str "Singapore Data.gov.sg"),
        ("url", .str "https://data.gov.sg"),
        ("description", .str "Singapore government open data portal"),
        ("data_types", .arr [.str "weather", .str "air_quality", .str "environmental_monitoring"])]),
     ("asean_statistics", .obj
       [("name", .str "ASEAN Statistics Portal"),
        ("url", .str "https://www.aseanstats.org"),
        ("description", .str "Regional statistics for ASEAN member countries"),
        ("data_types", .arr [.str "economic_indicators", .str "demographic_data", .str "trade_statistics"])]),
     ("adb_data_library", .obj
       [("name", .str "Asian Development Bank Data Library"),
        ("url", .str "https://data.adb.org"),
        ("description", .str "Economic and development data for Asia-Pacific"),
        ("data_types", .arr [.str "economic_indicators", .str "development_metrics", .str "climate_data"])])]

/-- `_generate_report_recommendations` (lines 254-269): five fixed
recommendations extended by the string-list `recommendations` of each result,
then `list(set(...))` deduplication (whose ordering CPython leaves
unspecified; only membership is meaningful and no claim depends on the
order, so first-occurrence order is used). -/
def generate_report_recommendations (analysis_results : List (List (String × Json))) :
    List String :=
  let base :=
    ["Continue monitoring air quality trends across all regions",
     "Implement cross-border environmental cooperation initiatives",
     "Invest in renewable energy infrastructure development",
     "Establish regional environmental data sharing protocols",
     "Develop early warning systems for environmental hazards"]
  let extended := base ++ analysis_results.flatMap fun r =>
    match alookup r "recommendations" with
    | some (.arr items) => items.filterMap fun j =>
        match j with
        | .str s => some s
        | _ => none
    | _ => []
  firstKeys extended

/-- `export_environmental_report` (lines 148-193): the `report_data` object
that the source then serializes with `json.dumps`.  `now` is the
`datetime.now().isoformat()` timestamp. -/
def export_environmental_report (now : String) (data_summary : List (String × Json))
    (analysis_results : List (List (String × Json))) (time_period : String) : Json :=
  .obj
    [("report_metadata", .obj
       [("report_title", .str "Southeast Asia Environmental Analysis Report"),
        ("generation_timestamp", .str now),
        ("time_period", .str time_period),
        ("report_version", .str "1.0"),
        ("data_sources", .arr
          [.str "Singapore Data.gov.sg", .str "ASEAN Statistics", .str "ADB Data Library"])]),
     ("executive_summary", .obj
       [("total_analyses_conducted", .num analysis_results.length),
        ("data_coverage", (alookup data_summary "data_coverage").getD (.obj [])),
        ("key_environmental_indicators", (alookup data_summary "key_indicators").getD (.arr [])),
        ("overall_data_quality", (alookup data_summary "data_quality_score").getD (.num 0))]),
     ("data_summary", .obj data_summary),
     ("analysis_results", .arr (analysis_results.map .obj)),
     ("recommendations", .arr ((generate_report_recommendations analysis_results).map .str)),
     ("appendices", .obj
       [("data_sources_details", get_data_sources_info),
        ("methodology_notes", .obj (get_methodology_notes.map fun kv => (kv.1, .str kv.2))),
        ("glossary", .obj (get_environmental_glossary.map fun kv => (kv.1, .str kv.2)))])]

/-- Read a key of a parsed JSON object. -/
def jget (j : Json) (k : String) : Option Json :=
  match j with
  | .obj fields => alookup fields k
  | _ => none

/-! Helper lemmas about the embedded dictionaries and pair enumerations. -/

lemma alookup_map_self {β : Type} (l : List String) (g : String → β) (k : String)
    (h : k ∈ l) : alookup (l.map fun c => (c, g c)) k = some (g k) := by
  induction l with
  | nil => cases h
  | cons c rest ih =>
      by_cases hc : c = k
      · subst hc; simp [alookup]
      · rcases List.mem_cons.mp h with h' | h'
        · exact absurd h'.symm hc
        · simpa [alookup, hc] using ih h'

lemma mem_firstKeys {a : String} : ∀ {l : List String}, a ∈ firstKeys l → a ∈ l := by
  intro l
  induction l with
  | nil => intro h; cases h
  | cons k rest ih =>
      intro h
      rcases List.mem_cons.mp h with h' | h'
      · exact h' ▸ List.mem_cons_self _ _
      · exact List.mem_cons_of_mem _ (ih (List.mem_filter.mp h').1)

lemma firstKeys_nodup : ∀ l : List String, (firstKeys l).Nodup := by
  intro l
  induction l with
  | nil => exact List.nodup_nil
  | cons k rest ih =>
      refine List.nodup_cons.mpr ⟨?_, ih.filter _⟩
      intro hmem
      have := (List.mem_filter.mp hmem).2
      simp at this

lemma prepared_columns_nodup (data : List (String × CountryEntry))
    (primary_vars secondary_vars : List String) (rng : List ℚ) :
    (prepare_correlation_matrix data primary_vars secondary_vars rng).1.columns.Nodup := by
  unfold prepare_correlation_matrix
  exact (firstKeys_nodup _).filter _

lemma mem_pairsUnder {pr : String × String} :
    ∀ {l : List String}, pr ∈ pairsUnder l → pr.1 ∈ l ∧ pr.2 ∈ l := by
  intro l
  induction l with
  | nil => intro h; cases h
  | cons c rest ih =>
      intro h
      rcases List.mem_append.mp h with h' | h'
      · rcases List.mem_map.mp h' with ⟨c2, hc2, he⟩
        subst he
        exact ⟨List.mem_cons_self _ _, List.mem_cons_of_mem _ hc2⟩
      · exact ⟨List.mem_cons_of_mem _ (ih h').1, List.mem_cons_of_mem _ (ih h').2⟩

lemma pairsUnder_nodup : ∀ {l : List String}, l.Nodup → (pairsUnder l).Nodup := by
  intro l
  induction l with
  | nil => intro _; exact List.nodup_nil
  | cons c rest ih =>
      intro h
      rcases List.nodup_cons.mp h with ⟨hc, hrest⟩
      refine List.Nodup.append ?_ (ih hrest) ?_
      · exact hrest.map (fun a b hab => by simpa using hab)
      · intro pr h1 h2
        rcases List.mem_map.mp h1 with ⟨c2, _, he⟩
        have := (mem_pairsUnder h2).1
        rw [← he] at this
        exact hc this

lemma pget_calc (corrStat : CorrStat) (t : Table) (method : String) (c1 c2 : String)
    (h1 : c1 ∈ t.columns) (h2 : c2 ∈ t.columns) :
    pget (calculate_correlation_p_values corrStat t method) c1 c2
      = if c1 = c2 then 0
        else
          match corrStat (correlation_methods_get method) (t.colVals c1) (t.colVals c2) with
          | some r => r.2
          | none => 1 := by
  unfold pget calculate_correlation_p_values
  rw [alookup_map_self _ _ _ h1]
  dsimp only
  rw [alookup_map_self _ _ _ h2]
  rfl

/-- On the success path (non-empty table, no exception from `DataFrame.corr`),
`calculate_cross_country_correlations` returns the assembled result record. -/
lemma calculate_success (corrStat : CorrStat) (corrDF : CorrDF) (rng : List ℚ)
    (data : List (String × CountryEntry)) (primary_vars secondary_vars : List String)
    (method : String) (f : String → String → ℚ)
    (hne : (prepare_correlation_matrix data primary_vars secondary_vars rng).1.isEmpty = false)
    (hok : corrDF (corr_matrix_method method)
        (prepare_correlation_matrix data primary_vars secondary_vars rng).1 = .ok f) :
    calculate_cross_country_correlations corrStat corrDF rng data primary_vars secondary_vars method
      = (let t := (prepare_correlation_matrix data primary_vars secondary_vars rng).1
         let m : Mat := { columns := t.columns, entry := f }
         let pvals := calculate_correlation_p_values corrStat t method
         { error := none,
           correlation_matrix := some (matrix_to_dict m),
           p_values := pvals,
           strong_positive := (identify_strong_correlations m pvals (Rat.divInt 7 10)).1,
           strong_negative := (identify_strong_correlations m pvals (Rat.divInt 7 10)).2,
           significance_results := some (assess_statistical_significance m pvals (Rat.divInt 1 20)),
           method_used := some method,
           variables_analyzed := some t.columns,
           data_points := some t.rows.length }) := by
  unfold calculate_cross_country_correlations
  simp only [hne, Bool.false_eq_true, if_false, hok]

lemma analyze_hypothesis_fst (self : AIAnalysisEngine) (oracle : LLMOracle)
    (now hypothesis : String) (data : List (String × PyData))
    (analysis_type confidence_level : String) :
    (analyze_hypothesis self oracle now hypothesis data analysis_type confidence_level).1
      = self := by
  unfold analyze_hypothesis
  dsimp only
  split <;> rfl

lemma parse_natural_language_query_fst (self : AIAnalysisEngine) (oracle : LLMOracle)
    (query : String) (countries : List String) (date_range : String × String) :
    (parse_natural_language_query self oracle query countries date_range).1 = self := by
  unfold parse_natural_language_query
  dsimp only
  split <;> rfl

lemma generate_query_response_fst (self : AIAnalysisEngine) (oracle : LLMOracle)
    (original_query : String) (query_results : List (String × PyData))
    (output_format : String) :
    (generate_query_response self oracle original_query query_results output_format).1
      = self := by
  unfold generate_query_response
  dsimp only
  split <;> rfl

lemma generate_environmental_insights_fst (self : AIAnalysisEngine) (oracle : LLMOracle)
    (data : List (String × PyData)) :
    (generate_environmental_insights self oracle data).1 = self := by
  unfold generate_environmental_insights
  dsimp only
  split <;> rfl

lemma engineStep_fst (oracle : LLMOracle) (e : AIAnalysisEngine) (c : EngineCall) :
    (engineStep oracle e c).1 = e := by
  cases c with
  | analyze now h d ty conf => exact analyze_hypothesis_fst e oracle now h d ty conf
  | parseQuery q cs dr => exact parse_natural_language_query_fst e oracle q cs dr
  | queryResponse q r fmt => exact generate_query_response_fst e oracle q r fmt
  | insights d => exact generate_environmental_insights_fst e oracle d

lemma runCalls_spec (oracle : LLMOracle) (e : AIAnalysisEngine) :
    ∀ calls : List EngineCall,
      runCalls oracle e calls = (e, calls.map fun c => (engineStep oracle e c).2) := by
  intro calls
  induction calls with
  | nil => rfl
  | cons c rest ih =>
      unfold runCalls
      dsimp only
      rw [engineStep_fst, ih]
      rfl

lemma prepareRows_plain (names : List String) (pv sv : List String) (rng : List ℚ) :
    prepareRows (names.map fun n => (n, ⟨true, none, none⟩)) pv sv rng
      = (names.map fun n => [("country", PyVal.s n)], rng) := by
  induction names generalizing rng with
  | nil => rfl
  | cons n rest ih => simp [prepareRows, ih]

lemma prepare_columns_eq (data : List (String × CountryEntry))
    (pv sv : List String) (rng : List ℚ) :
    (prepare_correlation_matrix data pv sv rng).1.columns
      = (firstKeys ((prepareRows data pv sv rng).1.flatMap fun r => r.map Prod.fst)).filter
          (fun c => colIsNumeric (prepareRows data pv sv rng).1 c) := rfl

lemma prepare_plain_empty (names : List String) (pv sv : List String) (rng : List ℚ) :
    (prepare_correlation_matrix (names.map fun n => (n, ⟨true, none, none⟩)) pv sv rng).1.isEmpty
      = true := by
  have hcols :
      (prepare_correlation_matrix (names.map fun n => (n, ⟨true, none, none⟩)) pv sv rng).1.columns
        = [] := by
    rw [prepare_columns_eq, prepareRows_plain]
    apply List.filter_eq_nil_iff.mpr
    intro c hc
    rcases List.mem_flatMap.mp (mem_firstKeys hc) with ⟨r, hr, hcr⟩
    rcases List.mem_map.mp hr with ⟨m, _, rfl⟩
    have hc' : c = "country" := by simpa using hcr
    subst hc'
    intro habs
    unfold colIsNumeric at habs
    have hp := List.all_eq_true.mp habs _ hr
    simp [alookup] at hp
  unfold Table.isEmpty
  rw [hcols]
  simp

/-- The per-result fields that the no-data dict carries. -/
def emptyResultSpec (r : CorrResult) : Prop :=
  r.error = some "No sufficient data for correlation analysis"
  ∧ r.correlation_matrix = none
  ∧ r.strong_positive = []
  ∧ r.strong_negative = []
  ∧ r.p_values = []

/-! The claims. -/

/-- Concrete country entry whose environmental DataFrame holds the single
numeric value `payload`. -/
def c1Entry (payload : ℚ) : CountryEntry :=
  { isDict := true,
    environmental := some { columns := ["value"], rows := [[payload]] },
    economic := none }

/-- Concrete one-country data dictionary. -/
def c1Data (payload : ℚ) : List (String × CountryEntry) := [("Singapore", c1Entry payload)]

/-- A concrete scipy-routine interpretation: coefficient 0, p-value 0. -/
def zeroStat : CorrStat := fun _ _ _ => some (0, 0)

/-- A concrete `DataFrame.corr` interpretation whose entries depend on the
numeric content of the table (as the real Pearson matrix does). -/
def headEntryDF : CorrDF := fun _ t => .ok fun c1 _ => (t.colVals c1).headD 0

/-- C1 (code bug): `_prepare_correlation_matrix` fills every variable with a
fresh `np.random.normal` placeholder and never reads the numeric values of
the input data.  At a fixed one-country input: changing the numeric payload
of the input leaves the prepared table and the full correlation result
unchanged, while changing only the hidden random stream changes the prepared
table and the reported `correlation_matrix`.  So the result is not determined
by the numeric values present in the input data, and two calls (which consume
different global RNG states) need not agree, contrary to the claim, whose
intent the `Placeholder` comments in the source acknowledge. -/
theorem prepare_matrix_uses_rng_not_input :
    ((prepare_correlation_matrix (c1Data 7) ["psi"] [] [1]).1
        = (prepare_correlation_matrix (c1Data 99) ["psi"] [] [1]).1)
    ∧ ((prepare_correlation_matrix (c1Data 7) ["psi"] [] [1]).1
        ≠ (prepare_correlation_matrix (c1Data 7) ["psi"] [] [2]).1)
    ∧ ((calculate_cross_country_correlations zeroStat headEntryDF [1, 2] (c1Data 7)
          ["psi", "x"] [] "Pearson").correlation_matrix
        = (calculate_cross_country_correlations zeroStat headEntryDF [1, 2] (c1Data 99)
          ["psi", "x"] [] "Pearson").correlation_matrix)
    ∧ ((calculate_cross_country_correlations zeroStat headEntryDF [1, 2] (c1Data 7)
          ["psi", "x"] [] "Pearson").p_values
        = (calculate_cross_country_correlations zeroStat headEntryDF [1, 2] (c1Data 99)
          ["psi", "x"] [] "Pearson").p_values)
    ∧ ((calculate_cross_country_correlations zeroStat headEntryDF [1, 2] (c1Data 7)
          ["psi", "x"] [] "Pearson").strong_positive
        = (calculate_cross_country_correlations zeroStat headEntryDF [1, 2] (c1Data 99)
          ["psi", "x"] [] "Pearson").strong_positive)
    ∧ ((calculate_cross_country_correlations zeroStat headEntryDF [1, 2] (c1Data 7)
          ["psi", "x"] [] "Pearson").strong_negative
        = (calculate_cross_country_correlations zeroStat headEntryDF [1, 2] (c1Data 99)
          ["psi", "x"] [] "Pearson").strong_negative)
    ∧ ((calculate_cross_country_correlations zeroStat headEntryDF [1, 2] (c1Data 7)
          ["psi", "x"] [] "Pearson").correlation_matrix
        ≠ (calculate_cross_country_correlations zeroStat headEntryDF [3, 4] (c1Data 7)
          ["psi", "x"] [] "Pearson").correlation_matrix) :=
  ⟨by decide, by decide, by decide, by decide, by decide, by decide, by decide⟩

/-- C7: the AI analysis engine is stateless: running any sequence of engine
calls leaves the engine unchanged, each result is a function of the engine
and that call alone (so no result depends on an earlier call), and a single
step preserves the `openai_client` and `model` fields. -/
theorem ai_engine_stateless (oracle : LLMOracle) (e : AIAnalysisEngine)
    (calls : List EngineCall) (c : EngineCall) :
    (runCalls oracle e calls).1 = e
    ∧ (runCalls oracle e calls).2 = calls.map (fun c' => (engineStep oracle e c').2)
    ∧ (engineStep oracle e c).1.openai_client = e.openai_client
    ∧ (engineStep oracle e c).1.model = e.model := by
  have h := runCalls_spec oracle e calls
  exact ⟨by rw [h], by rw [h], by rw [engineStep_fst], by rw [engineStep_fst]⟩

/-- C8: whenever the prepared table is empty, `calculate_cross_country_correlations`
returns the no-data dict (error message, null matrix, empty strong lists,
empty p-values); an empty country dictionary and a dictionary none of whose
entries contributes a numeric column both prepare an empty table. -/
theorem empty_data_error_spec (corrStat : CorrStat) (corrDF : CorrDF) (rng : List ℚ)
    (data : List (String × CountryEntry)) (primary_vars secondary_vars : List String)
    (method : String)
    (h : (prepare_correlation_matrix data primary_vars secondary_vars rng).1.isEmpty = true) :
    (calculate_cross_country_correlations corrStat corrDF rng data primary_vars
        secondary_vars method
      = corrErrorResult "No sufficient data for correlation analysis")
    ∧ emptyResultSpec (calculate_cross_country_correlations corrStat corrDF rng data
        primary_vars secondary_vars method)
    ∧ (∀ (pv' sv' : List String) (rng' : List ℚ),
        (prepare_correlation_matrix [] pv' sv' rng').1.isEmpty = true)
    ∧ (∀ (names : List String) (pv' sv' : List String) (rng' : List ℚ),
        (prepare_correlation_matrix (names.map fun n => (n, ⟨true, none, none⟩))
            pv' sv' rng').1.isEmpty = true) := by
  have hmain : calculate_cross_country_correlations corrStat corrDF rng data primary_vars
      secondary_vars method = corrErrorResult "No sufficient data for correlation analysis" := by
    unfold calculate_cross_country_correlations
    simp [h]
  refine ⟨hmain, ?_, fun _ _ _ => rfl, fun names pv' sv' rng' => prepare_plain_empty names pv' sv' rng'⟩
  rw [hmain]
  exact ⟨rfl, rfl, rfl, rfl, rfl⟩

/-- Witness for C8 at the empty dictionary. -/
theorem empty_data_error_spec_witness :
    ((prepare_correlation_matrix [] ["psi"] ["gdp"] []).1.isEmpty = true)
    ∧ ((calculate_cross_country_correlations zeroStat headEntryDF [] [] ["psi"] ["gdp"] "Pearson"
        = corrErrorResult "No sufficient data for correlation analysis")
      ∧ emptyResultSpec (calculate_cross_country_correlations zeroStat headEntryDF [] []
          ["psi"] ["gdp"] "Pearson")
      ∧ (∀ (pv' sv' : List String) (rng' : List ℚ),
          (prepare_correlation_matrix [] pv' sv' rng').1.isEmpty = true)
      ∧ (∀ (names : List String) (pv' sv' : List String) (rng' : List ℚ),
          (prepare_correlation_matrix (names.map fun n => (n, ⟨true, none, none⟩))
              pv' sv' rng').1.isEmpty = true)) :=
  ⟨rfl, empty_data_error_spec zeroStat headEntryDF [] [] ["psi"] ["gdp"] "Pearson" rfl⟩

/-- A concrete LLM round trip returning a fixed one-field object. -/
def c2Oracle : LLMOracle := fun _ => .ok [("hypothesis_assessment", .str "supported")]

/-- C2 counterexample: `analyze_hypothesis` does not return exactly the JSON
object parsed from the LLM response: on a response parsing to the one-field
object, the returned dict additionally carries the `analysis_metadata` key
added at lines 85-91, so it differs from the parsed object. -/
theorem analyze_hypothesis_adds_metadata_cx :
    (analyze_hypothesis (AIAnalysisEngine.init none) c2Oracle "2026-01-01T00:00:00" "H" []
        "Correlation Analysis" "95%").2
      ≠ Json.obj [("hypothesis_assessment", .str "supported")] := by
  simp [analyze_hypothesis, c2Oracle, jsonInsert, analyzeMetadata]

/-- C2 amended: `parse_natural_language_query` returns exactly the object
parsed from the LLM response; `analyze_hypothesis` returns that object with
exactly one addition, the `analysis_metadata` entry (timestamp, call
arguments and data-source keys), and no other transformation. -/
theorem ai_passthrough_amended (self : AIAnalysisEngine) (oracle : LLMOracle)
    (now hypothesis : String) (data : List (String × PyData))
    (analysis_type confidence_level : String) (query : String) (countries : List String)
    (date_range : String × String) (fields : List (String × Json))
    (h : ∀ r, oracle r = .ok fields) :
    (parse_natural_language_query self oracle query countries date_range).2 = .obj fields
    ∧ (analyze_hypothesis self oracle now hypothesis data analysis_type confidence_level).2
        = .obj (jsonInsert fields "analysis_metadata"
            (analyzeMetadata now hypothesis analysis_type confidence_level data)) := by
  constructor
  · unfold parse_natural_language_query
    dsimp only
    rw [h]
  · unfold analyze_hypothesis
    dsimp only
    rw [h]

/-- Witness for C2 amended at a concrete oracle and concrete arguments. -/
theorem ai_passthrough_amended_witness :
    (∀ r, c2Oracle r = .ok [("hypothesis_assessment", Json.str "supported")])
    ∧ ((parse_natural_language_query (AIAnalysisEngine.init none) c2Oracle "rainfall vs GDP"
          ["Singapore"] ("2024-01-01", "2024-12-31")).2
        = .obj [("hypothesis_assessment", Json.str "supported")]
      ∧ (analyze_hypothesis (AIAnalysisEngine.init none) c2Oracle "2026-01-01T00:00:00" "H" []
          "Correlation Analysis" "95%").2
        = .obj (jsonInsert [("hypothesis_assessment", Json.str "supported")] "analysis_metadata"
            (analyzeMetadata "2026-01-01T00:00:00" "H" "Correlation Analysis" "95%" []))) :=
  ⟨fun _ => rfl,
   ai_passthrough_amended (AIAnalysisEngine.init none) c2Oracle "2026-01-01T00:00:00" "H" []
     "Correlation Analysis" "95%" "rainfall vs GDP" ["Singapore"] ("2024-01-01", "2024-12-31")
     [("hypothesis_assessment", Json.str "supported")] (fun _ => rfl)⟩

/-- A concrete always-raising `DataFrame.corr` interpretation. -/
def failDF : CorrDF := fun _ _ => .error "boom"

/-- A concrete always-raising LLM round trip. -/
def failOracle : LLMOracle := fun _ => .error "down"

/-- C4: catch-and-default failure handling: when the `DataFrame.corr` call
raises, `calculate_cross_country_correlations` returns the default dict whose
`error` field carries the exception message, and when the LLM round trip
raises, `analyze_hypothesis` returns its default dict whose `error` field
carries the exception message; neither exception propagates (the embedded
functions are total). -/
theorem catch_and_default_spec (corrStat : CorrStat) (corrDF : CorrDF) (rng : List ℚ)
    (data : List (String × CountryEntry)) (primary_vars secondary_vars : List String)
    (method : String) (e : String) (self : AIAnalysisEngine) (oracle : LLMOracle)
    (now hypothesis : String) (d : List (String × PyData))
    (analysis_type confidence_level : String) (msg : String)
    (hne : (prepare_correlation_matrix data primary_vars secondary_vars rng).1.isEmpty = false)
    (hdf : corrDF (corr_matrix_method method)
        (prepare_correlation_matrix data primary_vars secondary_vars rng).1 = .error e)
    (horacle : ∀ r, oracle r = .error msg) :
    (calculate_cross_country_correlations corrStat corrDF rng data primary_vars
        secondary_vars method
      = corrErrorResult ("Correlation analysis failed: " ++ e))
    ∧ (analyze_hypothesis self oracle now hypothesis d analysis_type confidence_level).2
      = Json.obj
          [("error", .str ("AI analysis failed: " ++ msg)),
           ("hypothesis_assessment", .str "Analysis could not be completed"),
           ("interpretation", .str "Please check data availability and try again."),
           ("confidence_score", .num 0),
           ("data_points", .num 0)] := by
  constructor
  · unfold calculate_cross_country_correlations
    simp [hne, hdf]
  · unfold analyze_hypothesis
    dsimp only
    rw [horacle]

/-- Witness for C4 at concrete raising collaborators. -/
theorem catch_and_default_spec_witness :
    ((prepare_correlation_matrix (c1Data 7) ["psi"] [] [1]).1.isEmpty = false)
    ∧ (failDF (corr_matrix_method "Pearson")
        (prepare_correlation_matrix (c1Data 7) ["psi"] [] [1]).1 = .error "boom")
    ∧ (∀ r, failOracle r = .error "down")
    ∧ ((calculate_cross_country_correlations zeroStat failDF [1] (c1Data 7) ["psi"] [] "Pearson"
        = corrErrorResult ("Correlation analysis failed: " ++ "boom"))
      ∧ (analyze_hypothesis (AIAnalysisEngine.init none) failOracle "2026-01-01T00:00:00" "H" []
          "Correlation Analysis" "95%").2
        = Json.obj
            [("error", .str ("AI analysis failed: " ++ "down")),
             ("hypothesis_assessment", .str "Analysis could not be completed"),
             ("interpretation", .str "Please check data availability and try again."),
             ("confidence_score", .num 0),
             ("data_points", .num 0)]) :=
  ⟨rfl, rfl, fun _ => rfl,
   catch_and_default_spec zeroStat failDF [1] (c1Data 7) ["psi"] [] "Pearson" "boom"
     (AIAnalysisEngine.init none) failOracle "2026-01-01T00:00:00" "H" []
     "Correlation Analysis" "95%" "down" rfl rfl (fun _ => rfl)⟩

/-- A concrete always-raising scipy routine. -/
def noneStat : CorrStat := fun _ _ _ => none

/-- A concrete `DataFrame.corr` interpretation with all-zero entries. -/
def zeroDF : CorrDF := fun _ _ => .ok fun _ _ => 0

/-- C9: in the `p_values` dict of a successful
`calculate_cross_country_correlations` run, every variable paired with itself
has p-value exactly 0, and every distinct pair on which the scipy routine
raises has p-value exactly 1. -/
theorem pvalue_edge_cases_spec (corrStat : CorrStat) (corrDF : CorrDF) (rng : List ℚ)
    (data : List (String × CountryEntry)) (primary_vars secondary_vars : List String)
    (method : String) (f : String → String → ℚ)
    (hne : (prepare_correlation_matrix data primary_vars secondary_vars rng).1.isEmpty = false)
    (hok : corrDF (corr_matrix_method method)
        (prepare_correlation_matrix data primary_vars secondary_vars rng).1 = .ok f) :
    (∀ c ∈ (prepare_correlation_matrix data primary_vars secondary_vars rng).1.columns,
        pget (calculate_cross_country_correlations corrStat corrDF rng data primary_vars
            secondary_vars method).p_values c c = 0)
    ∧ (∀ c1 ∈ (prepare_correlation_matrix data primary_vars secondary_vars rng).1.columns,
       ∀ c2 ∈ (prepare_correlation_matrix data primary_vars secondary_vars rng).1.columns,
        c1 ≠ c2 →
        corrStat (correlation_methods_get method)
            ((prepare_correlation_matrix data primary_vars secondary_vars rng).1.colVals c1)
            ((prepare_correlation_matrix data primary_vars secondary_vars rng).1.colVals c2)
          = none →
        pget (calculate_cross_country_correlations corrStat corrDF rng data primary_vars
            secondary_vars method).p_values c1 c2 = 1) := by
  have hres := calculate_success corrStat corrDF rng data primary_vars secondary_vars method f
    hne hok
  constructor
  · intro c hc
    rw [hres]
    dsimp only
    rw [pget_calc _ _ _ _ _ hc hc]
    simp
  · intro c1 h1 c2 h2 hcc hraise
    rw [hres]
    dsimp only
    rw [pget_calc _ _ _ _ _ h1 h2, if_neg hcc, hraise]

/-- Witness for C9 at a concrete always-raising routine and two columns. -/
theorem pvalue_edge_cases_spec_witness :
    ((prepare_correlation_matrix (c1Data 7) ["a", "b"] [] [1, 2]).1.isEmpty = false)
    ∧ (zeroDF (corr_matrix_method "Pearson")
        (prepare_correlation_matrix (c1Data 7) ["a", "b"] [] [1, 2]).1
      = .ok fun _ _ => 0)
    ∧ ((∀ c ∈ (prepare_correlation_matrix (c1Data 7) ["a", "b"] [] [1, 2]).1.columns,
          pget (calculate_cross_country_correlations noneStat zeroDF [1, 2] (c1Data 7)
              ["a", "b"] [] "Pearson").p_values c c = 0)
      ∧ (∀ c1 ∈ (prepare_correlation_matrix (c1Data 7) ["a", "b"] [] [1, 2]).1.columns,
         ∀ c2 ∈ (prepare_correlation_matrix (c1Data 7) ["a", "b"] [] [1, 2]).1.columns,
          c1 ≠ c2 →
          noneStat (correlation_methods_get "Pearson")
              ((prepare_correlation_matrix (c1Data 7) ["a", "b"] [] [1, 2]).1.colVals c1)
              ((prepare_correlation_matrix (c1Data 7) ["a", "b"] [] [1, 2]).1.colVals c2)
            = none →
          pget (calculate_cross_country_correlations noneStat zeroDF [1, 2] (c1Data 7)
              ["a", "b"] [] "Pearson").p_values c1 c2 = 1)) :=
  ⟨rfl, rfl,
   pvalue_edge_cases_spec noneStat zeroDF [1, 2] (c1Data 7) ["a", "b"] [] "Pearson"
     (fun _ _ => 0) rfl rfl⟩

/-- The property stated by claim C3 about the strong-correlation extraction:
the `pos` / `neg` lists drawn from a correlation matrix over `cols` with
entry function `f` and p-value dict `p`.  The pair lists carry one entry per
qualifying `i < j` pair (the pair list is duplicate-free and the output
length equals the number of qualifying pairs), membership is equivalent to
`abs(coefficient) >= 0.7 and p < 0.05`, signs separate the two lists, and the
strength label is `Strong` exactly at `abs(coefficient) >= 0.8`. -/
def strongSpec (cols : List String) (f : String → String → ℚ)
    (p : List (String × List (String × ℚ))) (pos neg : List CorrInfo) : Prop :=
  (∀ info ∈ pos, 0 < info.coefficient)
  ∧ (∀ info ∈ neg, info.coefficient < 0)
  ∧ (∀ info ∈ pos ++ neg,
      (Rat.divInt 7 10 ≤ pyAbs info.coefficient ∧ info.p_value < Rat.divInt 1 20)
        ∧ info.strength
            = (if Rat.divInt 4 5 ≤ pyAbs info.coefficient then "Strong" else "Moderate"))
  ∧ (∀ pr ∈ pairsUnder cols,
      ((Rat.divInt 7 10 ≤ pyAbs (f pr.1 pr.2) ∧ pget p pr.1 pr.2 < Rat.divInt 1 20)
        ↔ mkCorrInfo pr.1 pr.2 (f pr.1 pr.2) (pget p pr.1 pr.2) ∈ pos ++ neg))
  ∧ (pairsUnder cols).Nodup
  ∧ pos.length + neg.length
      = ((pairsUnder cols).filter fun pr =>
          decide (Rat.divInt 7 10 ≤ pyAbs (f pr.1 pr.2)
            ∧ pget p pr.1 pr.2 < Rat.divInt 1 20)).length

lemma filterMap_ite {α β : Type} (l : List α) (p : α → Prop) [DecidablePred p] (g : α → β) :
    (l.filterMap fun a => if p a then some (g a) else none)
      = (l.filter fun a => decide (p a)).map g := by
  induction l with
  | nil => rfl
  | cons a rest ih =>
      by_cases h : p a
      · simp [List.filterMap_cons, List.filter_cons, h, ih]
      · simp [List.filterMap_cons, List.filter_cons, h, ih]

lemma length_filter_partition {α : Type} (l : List α) (q : α → Bool) :
    (l.filter q).length + (l.filter fun a => !q a).length = l.length := by
  induction l with
  | nil => rfl
  | cons a rest ih =>
      cases hq : q a <;> simp [List.filter_cons, hq] <;> omega

lemma identify_eq (m : Mat) (p : List (String × List (String × ℚ))) (th : ℚ) :
    identify_strong_correlations m p th
      = (let qual := (pairsUnder m.columns).filter fun pr =>
             decide (th ≤ pyAbs (m.entry pr.1 pr.2) ∧ pget p pr.1 pr.2 < Rat.divInt 1 20)
         ((qual.filter fun pr => decide (0 < m.entry pr.1 pr.2)).map fun pr =>
            mkCorrInfo pr.1 pr.2 (m.entry pr.1 pr.2) (pget p pr.1 pr.2),
          (qual.filter fun pr => decide (¬ 0 < m.entry pr.1 pr.2)).map fun pr =>
            mkCorrInfo pr.1 pr.2 (m.entry pr.1 pr.2) (pget p pr.1 pr.2))) := by
  unfold identify_strong_correlations
  dsimp only
  rw [filterMap_ite (l := pairsUnder m.columns)
      (p := fun pr => th ≤ pyAbs (m.entry pr.1 pr.2) ∧ pget p pr.1 pr.2 < Rat.divInt 1 20)
      (g := fun pr => mkCorrInfo pr.1 pr.2 (m.entry pr.1 pr.2) (pget p pr.1 pr.2))]
  rw [List.filter_map, List.filter_map]
  rfl

lemma identify_spec (m : Mat) (p : List (String × List (String × ℚ)))
    (hn : m.columns.Nodup) :
    strongSpec m.columns m.entry p
      (identify_strong_correlations m p (Rat.divInt 7 10)).1
      (identify_strong_correlations m p (Rat.divInt 7 10)).2 := by
  rw [identify_eq]
  dsimp only
  refine ⟨?_, ?_, ?_, ?_, pairsUnder_nodup hn, ?_⟩
  · intro info hmem
    rcases List.mem_map.mp hmem with ⟨pr, hpr, rfl⟩
    have := (List.mem_filter.mp hpr).2
    simpa [mkCorrInfo] using of_decide_eq_true this
  · intro info hmem
    rcases List.mem_map.mp hmem with ⟨pr, hpr, rfl⟩
    have hsign := of_decide_eq_true (List.mem_filter.mp hpr).2
    have hqual := of_decide_eq_true (List.mem_filter.mp (List.mem_filter.mp hpr).1).2
    have hne : m.entry pr.1 pr.2 ≠ 0 := by
      intro h0
      rw [h0] at hqual
      have : pyAbs 0 = 0 := rfl
      rw [this] at hqual
      exact absurd hqual.1 (by norm_num [Rat.divInt])
    have : m.entry pr.1 pr.2 < 0 := lt_of_le_of_ne (not_lt.mp hsign) hne
    simpa [mkCorrInfo] using this
  · intro info hmem
    rcases List.mem_append.mp hmem with h | h <;>
      rcases List.mem_map.mp h with ⟨pr, hpr, rfl⟩ <;>
      have hqual := of_decide_eq_true (List.mem_filter.mp (List.mem_filter.mp hpr).1).2 <;>
      exact ⟨by simpa [mkCorrInfo] using hqual, rfl⟩
  · intro pr hpr
    constructor
    · intro hqual
      by_cases hsign : 0 < m.entry pr.1 pr.2
      · exact List.mem_append.mpr (Or.inl (List.mem_map_of_mem _
          (List.mem_filter.mpr ⟨List.mem_filter.mpr ⟨hpr, decide_eq_true hqual⟩,
            decide_eq_true hsign⟩)))
      · exact List.mem_append.mpr (Or.inr (List.mem_map_of_mem _
          (List.mem_filter.mpr ⟨List.mem_filter.mpr ⟨hpr, decide_eq_true hqual⟩,
            decide_eq_true hsign⟩)))
    · intro hmem
      rcases List.mem_append.mp hmem with h | h <;>
        rcases List.mem_map.mp h with ⟨pr', hpr', heq⟩ <;>
        have hqual := of_decide_eq_true (List.mem_filter.mp (List.mem_filter.mp hpr').1).2 <;>
        [skip; skip] <;>
        · have hco : m.entry pr'.1 pr'.2 = m.entry pr.1 pr.2 := congrArg CorrInfo.coefficient heq
          have hpv : pget p pr'.1 pr'.2 = pget p pr.1 pr.2 := congrArg CorrInfo.p_value heq
          rw [hco, hpv] at hqual
          exact hqual
  · rw [List.length_map, List.length_map]
    have hneg : ((pairsUnder m.columns).filter fun pr =>
          decide (Rat.divInt 7 10 ≤ pyAbs (m.entry pr.1 pr.2)
            ∧ pget p pr.1 pr.2 < Rat.divInt 1 20)).filter
          (fun pr => !decide (0 < m.entry pr.1 pr.2))
        = ((pairsUnder m.columns).filter fun pr =>
            decide (Rat.divInt 7 10 ≤ pyAbs (m.entry pr.1 pr.2)
              ∧ pget p pr.1 pr.2 < Rat.divInt 1 20)).filter
          (fun pr => decide (¬ 0 < m.entry pr.1 pr.2)) := by
      apply List.filter_congr
      intro a _
      rw [decide_not]
    rw [← hneg]
    exact length_filter_partition _ _

lemma ordered_filter_length (l1 l2 : List String) (q : String × String → Bool) :
    ((orderedPairs l1 l2).filter q).length
      = (l1.map fun a => l2.countP fun b => decide (a ≠ b) && q (a, b)).sum := by
  induction l1 with
  | nil => rfl
  | cons a l1 ih =>
      have hinner : ∀ l2' : List String,
          ((l2'.flatMap fun c2 => if a ≠ c2 then [(a, c2)] else []).filter q).length
            = l2'.countP fun b => decide (a ≠ b) && q (a, b) := by
        intro l2'
        induction l2' with
        | nil => rfl
        | cons b l2' ih2 =>
            rw [List.flatMap_cons, List.filter_append, List.length_append, ih2,
              List.countP_cons]
            by_cases hab : a = b
            · subst hab
              simp
            · by_cases hq : q (a, b)
              · simp [hab, hq, List.filter_cons, Nat.add_comm]
              · simp [hab, hq, List.filter_cons]
      unfold orderedPairs
      rw [List.flatMap_cons, List.filter_append, List.length_append, hinner]
      unfold orderedPairs at ih
      rw [ih]
      simp [Nat.add_comm]

lemma countP_ne_of_nodup (l : List String) (a : String) (hn : l.Nodup) (ha : a ∈ l) :
    (l.countP fun b => decide (a ≠ b)) = l.length - 1 := by
  induction l with
  | nil => cases ha
  | cons c cs ih =>
      rcases List.nodup_cons.mp hn with ⟨hc, hcs⟩
      rcases List.mem_cons.mp ha with rfl | ha'
      · have h2 : (cs.countP fun b => decide (a ≠ b)) = cs.length := by
          apply List.countP_eq_length.mpr
          intro b hb
          simp only [decide_eq_true_eq]
          intro he
          exact hc (he ▸ hb)
        rw [List.countP_cons, h2]
        simp
      · rw [List.countP_cons]
        have h1 : (decide (a ≠ c) : Bool) = true := by
          simp only [decide_eq_true_eq]
          intro he
          exact hc (he ▸ ha')
        have hlen : 1 ≤ cs.length := List.length_pos.mpr (List.ne_nil_of_mem ha')
        rw [ih hcs ha', h1]
        simp
        omega

lemma sum_map_const_of {α : Type} (l : List α) (g : α → ℕ) (k : ℕ)
    (h : ∀ a ∈ l, g a = k) : (l.map g).sum = l.length * k := by
  induction l with
  | nil => simp
  | cons a rest ih =>
      rw [List.map_cons, List.sum_cons, h a (List.mem_cons_self _ _),
        ih fun b hb => h b (List.mem_cons_of_mem _ hb)]
      simp [List.length_cons]
      ring

lemma sum_map_add_distrib {α : Type} (l : List α) (g h : α → ℕ) :
    (l.map fun a => g a + h a).sum = (l.map g).sum + (l.map h).sum := by
  induction l with
  | nil => rfl
  | cons a rest ih => simp [ih]; omega

lemma sum_map_ite_count {α : Type} (l : List α) (q : α → Bool) :
    (l.map fun a => if q a then 1 else 0).sum = l.countP q := by
  induction l with
  | nil => rfl
  | cons a rest ih =>
      cases hq : q a <;> simp [List.countP_cons, hq, ih, Nat.add_comm]

lemma sym_double_count (Q : String → String → Bool) (l : List String) (hn : l.Nodup)
    (hsym : ∀ a ∈ l, ∀ b ∈ l, Q a b = Q b a) :
    (l.map fun a => l.countP fun b => decide (a ≠ b) && Q a b).sum
      = 2 * ((pairsUnder l).countP fun pr => Q pr.1 pr.2) := by
  induction l with
  | nil => rfl
  | cons c cs ih =>
      rcases List.nodup_cons.mp hn with ⟨hc, hcs⟩
      have hhead : ((c :: cs).countP fun b => decide (c ≠ b) && Q c b)
          = cs.countP fun b => Q c b := by
        rw [List.countP_cons]
        have h0 : (decide (c ≠ c) && Q c c) = false := by simp
        rw [h0]
        have := List.countP_congr (l := cs)
          (p := fun b => decide (c ≠ b) && Q c b) (q := fun b => Q c b) ?_
        · simpa using this
        · intro b hb
          have hne : c ≠ b := fun he => hc (he ▸ hb)
          simp [hne]
      have htail : ∀ a ∈ cs,
          ((c :: cs).countP fun b => decide (a ≠ b) && Q a b)
            = (cs.countP fun b => decide (a ≠ b) && Q a b) + (if Q a c then 1 else 0) := by
        intro a ha
        rw [List.countP_cons]
        have hne : (decide (a ≠ c) : Bool) = true := by
          simp only [decide_eq_true_eq]
          intro he
          exact hc (he ▸ ha)
        cases hq : Q a c <;> simp [hne, hq]
      rw [List.map_cons, List.sum_cons, hhead]
      have hmap : (cs.map fun a => (c :: cs).countP fun b => decide (a ≠ b) && Q a b)
          = cs.map fun a =>
              (cs.countP fun b => decide (a ≠ b) && Q a b) + (if Q a c then 1 else 0) :=
        List.map_congr_left htail
      rw [hmap, sum_map_add_distrib, sum_map_ite_count,
        ih hcs (fun a ha b hb => hsym a (List.mem_cons_of_mem _ ha) b (List.mem_cons_of_mem _ hb))]
      have hswap : (cs.countP fun a => Q a c) = cs.countP fun a => Q c a :=
        List.countP_congr fun a ha => by
          rw [hsym a (List.mem_cons_of_mem _ ha) c (List.mem_cons_self _ _)]
      rw [hswap]
      have hpu : pairsUnder (c :: cs) = (cs.map fun c2 => (c, c2)) ++ pairsUnder cs := rfl
      rw [hpu, List.countP_append, List.countP_map]
      have : (cs.countP ((fun pr => Q pr.1 pr.2) ∘ fun c2 => (c, c2)))
          = cs.countP fun a => Q c a := rfl
      rw [this]
      ring

lemma match_snd_getD (o : Option (ℚ × ℚ)) :
    (match o with | some r => r.2 | none => 1) = ((o.map Prod.snd).getD 1 : ℚ) := by
  cases o <;> rfl

lemma assess_spec (m : Mat) (p : List (String × List (String × ℚ))) (alpha : ℚ)
    (hn : m.columns.Nodup)
    (hsymP : ∀ a ∈ m.columns, ∀ b ∈ m.columns, pget p a b = pget p b a) :
    assess_statistical_significance m p alpha
      = { total_correlations := m.columns.length * (m.columns.length - 1) / 2,
          significant_correlations :=
            ((pairsUnder m.columns).filter fun pr => decide (pget p pr.1 pr.2 < alpha)).length,
          significance_rate :=
            if 0 < m.columns.length * (m.columns.length - 1)
            then ((2 * ((pairsUnder m.columns).filter fun pr =>
                    decide (pget p pr.1 pr.2 < alpha)).length : ℕ) : ℚ)
                  / ((m.columns.length * (m.columns.length - 1) : ℕ) : ℚ)
            else 0,
          alpha_level := alpha } := by
  have htotal : (orderedPairs m.columns m.columns).length
      = m.columns.length * (m.columns.length - 1) := by
    rw [← List.filter_true (orderedPairs m.columns m.columns), ordered_filter_length]
    have hconst : ∀ a ∈ m.columns,
        (m.columns.countP fun b => decide (a ≠ b) && true) = m.columns.length - 1 := by
      intro a ha
      have : (m.columns.countP fun b => decide (a ≠ b) && true)
          = m.columns.countP fun b => decide (a ≠ b) :=
        List.countP_congr fun b _ => by simp
      rw [this]
      exact countP_ne_of_nodup _ _ hn ha
    exact sum_map_const_of _ _ _ hconst
  have hsig : ((orderedPairs m.columns m.columns).filter fun pr =>
        decide (pget p pr.1 pr.2 < alpha)).length
      = 2 * ((pairsUnder m.columns).countP fun pr => decide (pget p pr.1 pr.2 < alpha)) := by
    rw [ordered_filter_length]
    exact sym_double_count (fun a b => decide (pget p a b < alpha)) m.columns hn
      fun a ha b hb => by
        show decide (pget p a b < alpha) = decide (pget p b a < alpha)
        rw [hsymP a ha b hb]
  unfold assess_statistical_significance
  dsimp only
  rw [htotal, hsig, List.countP_eq_length_filter]
  have h2u : 2 * ((pairsUnder m.columns).filter fun pr =>
        decide (pget p pr.1 pr.2 < alpha)).length / 2
      = ((pairsUnder m.columns).filter fun pr =>
          decide (pget p pr.1 pr.2 < alpha)).length := by
    omega
  rw [h2u]

lemma calc_pvalues_symm (corrStat : CorrStat) (t : Table) (method : String)
    (hsym : ∀ meth xs ys,
      (corrStat meth xs ys).map Prod.snd = (corrStat meth ys xs).map Prod.snd) :
    ∀ a ∈ t.columns, ∀ b ∈ t.columns,
      pget (calculate_correlation_p_values corrStat t method) a b
        = pget (calculate_correlation_p_values corrStat t method) b a := by
  intro a ha b hb
  rw [pget_calc _ _ _ _ _ ha hb, pget_calc _ _ _ _ _ hb ha]
  by_cases hab : a = b
  · subst hab
    simp
  · rw [if_neg hab, if_neg (Ne.symm hab), match_snd_getD, match_snd_getD, hsym]

/-- C3: in a successful `calculate_cross_country_correlations` run, the
strong-correlation extraction satisfies the claimed specification: an
unordered pair appears (at most once) in `strong_positive` or
`strong_negative` iff `abs(coefficient) >= 0.7` and `p < 0.05`, positives
have positive coefficient and negatives negative, and the strength label is
`Strong` exactly at `abs(coefficient) >= 0.8`. -/
theorem strong_correlation_extraction_spec (corrStat : CorrStat) (corrDF : CorrDF)
    (rng : List ℚ) (data : List (String × CountryEntry))
    (primary_vars secondary_vars : List String) (method : String)
    (f : String → String → ℚ)
    (hne : (prepare_correlation_matrix data primary_vars secondary_vars rng).1.isEmpty = false)
    (hok : corrDF (corr_matrix_method method)
        (prepare_correlation_matrix data primary_vars secondary_vars rng).1 = .ok f) :
    strongSpec (prepare_correlation_matrix data primary_vars secondary_vars rng).1.columns f
      (calculate_cross_country_correlations corrStat corrDF rng data primary_vars
        secondary_vars method).p_values
      (calculate_cross_country_correlations corrStat corrDF rng data primary_vars
        secondary_vars method).strong_positive
      (calculate_cross_country_correlations corrStat corrDF rng data primary_vars
        secondary_vars method).strong_negative := by
  have hres := calculate_success corrStat corrDF rng data primary_vars secondary_vars method f
    hne hok
  rw [hres]
  exact identify_spec
    { columns := (prepare_correlation_matrix data primary_vars secondary_vars rng).1.columns,
      entry := f }
    (calculate_correlation_p_values corrStat
      (prepare_correlation_matrix data primary_vars secondary_vars rng).1 method)
    (prepared_columns_nodup data primary_vars secondary_vars rng)

/-- Concrete correlation-matrix entries with one strong positive pair, one
strong negative pair and one weak pair over columns `a`, `b`, `c`. -/
def c3Entry : String → String → ℚ := fun c1 c2 =>
  if (c1 = "a" ∧ c2 = "b") ∨ (c1 = "b" ∧ c2 = "a") then Rat.divInt 9 10
  else if (c1 = "a" ∧ c2 = "c") ∨ (c1 = "c" ∧ c2 = "a") then Rat.divInt (-3) 4
  else if c1 = c2 then 1
  else Rat.divInt 1 10

/-- A concrete `DataFrame.corr` interpretation returning `c3Entry`. -/
def c3DF : CorrDF := fun _ _ => .ok c3Entry

/-- A concrete scipy routine with p-value 0.01 everywhere. -/
def c3Stat : CorrStat := fun _ _ _ => some (0, Rat.divInt 1 100)

/-- C6: in a successful `calculate_cross_country_correlations` run with a
routine family whose p-value is symmetric in its two argument columns (as the
scipy routines are), the reported `significance_results` carry
`total_correlations = n*(n-1)/2` for the `n` analyzed variables,
`significant_correlations` equal to the number of unordered distinct-variable
pairs with p-value below 0.05, `significance_rate` equal to the fraction of
ordered distinct-variable pairs that are significant, and
`alpha_level = 0.05`. -/
theorem significance_counting_spec (corrStat : CorrStat) (corrDF : CorrDF)
    (rng : List ℚ) (data : List (String × CountryEntry))
    (primary_vars secondary_vars : List String) (method : String)
    (f : String → String → ℚ)
    (hne : (prepare_correlation_matrix data primary_vars secondary_vars rng).1.isEmpty = false)
    (hok : corrDF (corr_matrix_method method)
        (prepare_correlation_matrix data primary_vars secondary_vars rng).1 = .ok f)
    (hsym : ∀ meth xs ys,
      (corrStat meth xs ys).map Prod.snd = (corrStat meth ys xs).map Prod.snd) :
    (calculate_cross_country_correlations corrStat corrDF rng data primary_vars
        secondary_vars method).significance_results
      = some
        { total_correlations :=
            (prepare_correlation_matrix data primary_vars secondary_vars rng).1.columns.length
              * ((prepare_correlation_matrix data primary_vars
                    secondary_vars rng).1.columns.length - 1) / 2,
          significant_correlations :=
            ((pairsUnder (prepare_correlation_matrix data primary_vars
                  secondary_vars rng).1.columns).filter fun pr =>
              decide (pget (calculate_cross_country_correlations corrStat corrDF rng data
                  primary_vars secondary_vars method).p_values pr.1 pr.2
                < Rat.divInt 1 20)).length,
          significance_rate :=
            if 0 < (prepare_correlation_matrix data primary_vars
                  secondary_vars rng).1.columns.length
                * ((prepare_correlation_matrix data primary_vars
                      secondary_vars rng).1.columns.length - 1)
            then ((2 * ((pairsUnder (prepare_correlation_matrix data primary_vars
                      secondary_vars rng).1.columns).filter fun pr =>
                    decide (pget (calculate_cross_country_correlations corrStat corrDF rng data
                        primary_vars secondary_vars method).p_values pr.1 pr.2
                      < Rat.divInt 1 20)).length : ℕ) : ℚ)
                  / (((prepare_correlation_matrix data primary_vars
                        secondary_vars rng).1.columns.length
                      * ((prepare_correlation_matrix data primary_vars
                            secondary_vars rng).1.columns.length - 1) : ℕ) : ℚ)
            else 0,
          alpha_level := Rat.divInt 1 20 } := by
  have hres := calculate_success corrStat corrDF rng data primary_vars secondary_vars method f
    hne hok
  rw [hres]
  dsimp only
  rw [assess_spec _ _ _ (prepared_columns_nodup data primary_vars secondary_vars rng)
    (calc_pvalues_symm corrStat _ method hsym)]

/-- Witness for C6 at a three-column table with symmetric constant p-values. -/
theorem significance_counting_spec_witness :
    ((prepare_correlation_matrix (c1Data 7) ["a", "b", "c"] [] [1, 2, 3]).1.isEmpty = false)
    ∧ (c3DF (corr_matrix_method "Pearson")
        (prepare_correlation_matrix (c1Data 7) ["a", "b", "c"] [] [1, 2, 3]).1 = .ok c3Entry)
    ∧ (∀ meth xs ys,
        (c3Stat meth xs ys).map Prod.snd = (c3Stat meth ys xs).map Prod.snd)
    ∧ ((calculate_cross_country_correlations c3Stat c3DF [1, 2, 3] (c1Data 7)
          ["a", "b", "c"] [] "Pearson").significance_results
        = some
          { total_correlations :=
              (prepare_correlation_matrix (c1Data 7) ["a", "b", "c"] [] [1, 2, 3]).1.columns.length
                * ((prepare_correlation_matrix (c1Data 7) ["a", "b", "c"] []
                      [1, 2, 3]).1.columns.length - 1) / 2,
            significant_correlations :=
              ((pairsUnder (prepare_correlation_matrix (c1Data 7) ["a", "b", "c"] []
                    [1, 2, 3]).1.columns).filter fun pr =>
                decide (pget (calculate_cross_country_correlations c3Stat c3DF [1, 2, 3]
                    (c1Data 7) ["a", "b", "c"] [] "Pearson").p_values pr.1 pr.2
                  < Rat.divInt 1 20)).length,
            significance_rate :=
              if 0 < (prepare_correlation_matrix (c1Data 7) ["a", "b", "c"] []
                    [1, 2, 3]).1.columns.length
                  * ((prepare_correlation_matrix (c1Data 7) ["a", "b", "c"] []
                        [1, 2, 3]).1.columns.length - 1)
              then ((2 * ((pairsUnder (prepare_correlation_matrix (c1Data 7) ["a", "b", "c"] []
                        [1, 2, 3]).1.columns).filter fun pr =>
                      decide (pget (calculate_cross_country_correlations c3Stat c3DF [1, 2, 3]
                          (c1Data 7) ["a", "b", "c"] [] "Pearson").p_values pr.1 pr.2
                        < Rat.divInt 1 20)).length : ℕ) : ℚ)
                    / (((prepare_correlation_matrix (c1Data 7) ["a", "b", "c"] []
                          [1, 2, 3]).1.columns.length
                        * ((prepare_correlation_matrix (c1Data 7) ["a", "b", "c"] []
                              [1, 2, 3]).1.columns.length - 1) : ℕ) : ℚ)
              else 0,
            alpha_level := Rat.divInt 1 20 }) :=
  ⟨rfl, rfl, fun _ _ _ => rfl,
   significance_counting_spec c3Stat c3DF [1, 2, 3] (c1Data 7) ["a", "b", "c"] [] "Pearson"
     c3Entry rfl rfl (fun _ _ _ => rfl)⟩

/-- Witness for C3 at a three-column table. -/
theorem strong_correlation_extraction_spec_witness :
    ((prepare_correlation_matrix (c1Data 7) ["a", "b", "c"] [] [1, 2, 3]).1.isEmpty = false)
    ∧ (c3DF (corr_matrix_method "Pearson")
        (prepare_correlation_matrix (c1Data 7) ["a", "b", "c"] [] [1, 2, 3]).1 = .ok c3Entry)
    ∧ strongSpec (prepare_correlation_matrix (c1Data 7) ["a", "b", "c"] [] [1, 2, 3]).1.columns
        c3Entry
        (calculate_cross_country_correlations c3Stat c3DF [1, 2, 3] (c1Data 7)
          ["a", "b", "c"] [] "Pearson").p_values
        (calculate_cross_country_correlations c3Stat c3DF [1, 2, 3] (c1Data 7)
          ["a", "b", "c"] [] "Pearson").strong_positive
        (calculate_cross_country_correlations c3Stat c3DF [1, 2, 3] (c1Data 7)
          ["a", "b", "c"] [] "Pearson").strong_negative :=
  ⟨rfl, rfl,
   strong_correlation_extraction_spec c3Stat c3DF [1, 2, 3] (c1Data 7) ["a", "b", "c"] []
     "Pearson" c3Entry rfl rfl⟩

/-- Concrete p-values distinguishing the three scipy routines. -/
def tagP : CorrMethod → ℚ
  | .pearson => Rat.divInt 1 4
  | .spearman => Rat.divInt 1 8
  | .kendall => Rat.divInt 1 16

/-- A concrete scipy routine family whose p-value reveals which routine ran. -/
def tagStat : CorrStat := fun m _ _ => some (0, tagP m)

/-- Concrete matrix entries distinguishing the three `DataFrame.corr` methods. -/
def tagC : CorrMethod → ℚ
  | .pearson => 1
  | .spearman => 2
  | .kendall => 3

/-- A concrete `DataFrame.corr` interpretation whose entries reveal which
method ran. -/
def tagDF : CorrDF := fun m _ => .ok fun _ _ => tagC m

/-- C5 counterexample: for the method string `spearman` (case-insensitively
equal to `Spearman`), the correlation matrix is computed with the Spearman
method but the p-values are computed with `pearsonr`: the case-sensitive
`correlation_methods.get` at line 265 misses the lower-case key and falls
back to its `pearsonr` default, so the two computations use different
routines, contrary to the claim. -/
theorem pvalue_dispatch_case_sensitive_cx :
    (corr_matrix_method "spearman" = CorrMethod.spearman)
    ∧ (correlation_methods_get "spearman" = CorrMethod.pearson)
    ∧ (pget (calculate_cross_country_correlations tagStat tagDF [1, 2] (c1Data 7)
          ["x", "y"] [] "spearman").p_values "x" "y" = tagP CorrMethod.pearson)
    ∧ ((calculate_cross_country_correlations tagStat tagDF [1, 2] (c1Data 7)
          ["x", "y"] [] "spearman").correlation_matrix
        = some (matrix_to_dict
            { columns := ["x", "y"], entry := fun _ _ => tagC CorrMethod.spearman }))
    ∧ tagP CorrMethod.pearson ≠ tagP CorrMethod.spearman :=
  ⟨by decide, by decide, by decide, by decide, by decide⟩

/-- C5 amended: the correlation matrix is computed with the method matched
case-insensitively (defaulting to Pearson), while the per-pair p-values are
computed with the method matched case-sensitively against `Pearson`,
`Spearman`, `Kendall` (defaulting to `pearsonr`); the two dispatches agree on
exactly those three capitalized strings. -/
theorem method_dispatch_amended (corrStat : CorrStat) (corrDF : CorrDF) (rng : List ℚ)
    (data : List (String × CountryEntry)) (primary_vars secondary_vars : List String)
    (method : String) (f : String → String → ℚ)
    (hne : (prepare_correlation_matrix data primary_vars secondary_vars rng).1.isEmpty = false)
    (hok : corrDF (corr_matrix_method method)
        (prepare_correlation_matrix data primary_vars secondary_vars rng).1 = .ok f) :
    ((calculate_cross_country_correlations corrStat corrDF rng data primary_vars
        secondary_vars method).correlation_matrix
      = some (matrix_to_dict
          { columns := (prepare_correlation_matrix data primary_vars secondary_vars rng).1.columns,
            entry := f }))
    ∧ ((calculate_cross_country_correlations corrStat corrDF rng data primary_vars
          secondary_vars method).p_values
        = calculate_correlation_p_values corrStat
            (prepare_correlation_matrix data primary_vars secondary_vars rng).1 method)
    ∧ (∀ c1 ∈ (prepare_correlation_matrix data primary_vars secondary_vars rng).1.columns,
       ∀ c2 ∈ (prepare_correlation_matrix data primary_vars secondary_vars rng).1.columns,
        c1 ≠ c2 →
        pget (calculate_cross_country_correlations corrStat corrDF rng data primary_vars
            secondary_vars method).p_values c1 c2
          = match corrStat (correlation_methods_get method)
                ((prepare_correlation_matrix data primary_vars secondary_vars rng).1.colVals c1)
                ((prepare_correlation_matrix data primary_vars secondary_vars rng).1.colVals c2) with
            | some r => r.2
            | none => 1)
    ∧ (method = "Pearson" →
        corr_matrix_method method = .pearson ∧ correlation_methods_get method = .pearson)
    ∧ (method = "Spearman" →
        corr_matrix_method method = .spearman ∧ correlation_methods_get method = .spearman)
    ∧ (method = "Kendall" →
        corr_matrix_method method = .kendall ∧ correlation_methods_get method = .kendall)
    ∧ (method ≠ "Pearson" → method ≠ "Spearman" → method ≠ "Kendall" →
        correlation_methods_get method = .pearson)
    ∧ (pyLower method ≠ "pearson" → pyLower method ≠ "spearman" → pyLower method ≠ "kendall" →
        corr_matrix_method method = .pearson) := by
  have hres := calculate_success corrStat corrDF rng data primary_vars secondary_vars method f
    hne hok
  refine ⟨?_, ?_, ?_, ?_, ?_, ?_, ?_, ?_⟩
  · rw [hres]
  · rw [hres]
  · intro c1 h1 c2 h2 hcc
    rw [hres]
    dsimp only
    rw [pget_calc _ _ _ _ _ h1 h2, if_neg hcc]
  · intro h; subst h; exact ⟨by decide, by decide⟩
  · intro h; subst h; exact ⟨by decide, by decide⟩
  · intro h; subst h; exact ⟨by decide, by decide⟩
  · intro h1 h2 h3
    unfold correlation_methods_get
    rw [if_neg h1, if_neg h2, if_neg h3]
  · intro h1 h2 h3
    unfold corr_matrix_method
    rw [if_neg h1, if_neg h2, if_neg h3]

/-- Witness for C5 amended at the exactly-capitalized `Spearman` method. -/
theorem method_dispatch_amended_witness :
    ((prepare_correlation_matrix (c1Data 7) ["x", "y"] [] [1, 2]).1.isEmpty = false)
    ∧ (tagDF (corr_matrix_method "Spearman")
        (prepare_correlation_matrix (c1Data 7) ["x", "y"] [] [1, 2]).1
      = .ok fun _ _ => tagC CorrMethod.spearman)
    ∧ (((calculate_cross_country_correlations tagStat tagDF [1, 2] (c1Data 7)
          ["x", "y"] [] "Spearman").correlation_matrix
        = some (matrix_to_dict
            { columns := (prepare_correlation_matrix (c1Data 7) ["x", "y"] [] [1, 2]).1.columns,
              entry := fun _ _ => tagC CorrMethod.spearman }))
      ∧ ((calculate_cross_country_correlations tagStat tagDF [1, 2] (c1Data 7)
            ["x", "y"] [] "Spearman").p_values
          = calculate_correlation_p_values tagStat
              (prepare_correlation_matrix (c1Data 7) ["x", "y"] [] [1, 2]).1 "Spearman")
      ∧ (∀ c1 ∈ (prepare_correlation_matrix (c1Data 7) ["x", "y"] [] [1, 2]).1.columns,
         ∀ c2 ∈ (prepare_correlation_matrix (c1Data 7) ["x", "y"] [] [1, 2]).1.columns,
          c1 ≠ c2 →
          pget (calculate_cross_country_correlations tagStat tagDF [1, 2] (c1Data 7)
              ["x", "y"] [] "Spearman").p_values c1 c2
            = match tagStat (correlation_methods_get "Spearman")
                  ((prepare_correlation_matrix (c1Data 7) ["x", "y"] [] [1, 2]).1.colVals c1)
                  ((prepare_correlation_matrix (c1Data 7) ["x", "y"] [] [1, 2]).1.colVals c2) with
              | some r => r.2
              | none => 1)
      ∧ ("Spearman" = "Pearson" →
          corr_matrix_method "Spearman" = .pearson
            ∧ correlation_methods_get "Spearman" = .pearson)
      ∧ ("Spearman" = "Spearman" →
          corr_matrix_method "Spearman" = .spearman
            ∧ correlation_methods_get "Spearman" = .spearman)
      ∧ ("Spearman" = "Kendall" →
          corr_matrix_method "Spearman" = .kendall
            ∧ correlation_methods_get "Spearman" = .kendall)
      ∧ ("Spearman" ≠ "Pearson" → "Spearman" ≠ "Spearman" → "Spearman" ≠ "Kendall" →
          correlation_methods_get "Spearman" = .pearson)
      ∧ (pyLower "Spearman" ≠ "pearson" → pyLower "Spearman" ≠ "spearman" →
          pyLower "Spearman" ≠ "kendall" → corr_matrix_method "Spearman" = .pearson)) :=
  ⟨rfl, rfl,
   method_dispatch_amended tagStat tagDF [1, 2] (c1Data 7) ["x", "y"] [] "Spearman"
     (fun _ _ => tagC CorrMethod.spearman) rfl rfl⟩

/-- C10: every report object built by `export_environmental_report` carries a
glossary appendix whose `PSI` entry is the Pollutant Standards Index
air-quality definition and whose `EPI` entry is the Environmental Performance
Index composite definition. -/
theorem report_glossary_spec (now : String) (data_summary : List (String × Json))
    (analysis_results : List (List (String × Json))) (time_period : String) :
    ((jget (export_environmental_report now data_summary analysis_results time_period)
          "appendices").bind fun a => (jget a "glossary").bind fun g => jget g "PSI")
      = some (.str "Pollutant Standards Index - measure of air quality based on pollutant concentrations")
    ∧ ((jget (export_environmental_report now data_summary analysis_results time_period)
          "appendices").bind fun a => (jget a "glossary").bind fun g => jget g "EPI")
      = some (.str "Environmental Performance Index - composite measure of environmental health and ecosystem vitality") :=
  ⟨rfl, rfl⟩

end FieldLab
